import Mathlib

/-!
# Verification of the bridgy-fed follow/unfollow flow

A shallow embedding of the follow/unfollow protocol state machine of the
repository (the flow controller, activity builder, delivery client and
relationship store exercised by `src/tests/test_follow.py`, plus the
`/responses` query of `src/logs.py`), with theorems settling the frozen
claims about it.

The flow implementation module itself (`follow.py`) is not part of the
source tree; only its unit tests are.  The definitions below are therefore
modelled from the specification, with every behaviour that the unit tests
pin down (expected activity ids, stored records, session keys, signature
key ids, redirect targets) taken from the concrete assertions of
`src/tests/test_follow.py`.
-/

namespace BridgyFed

/-- A datastore key: an entity kind (web user vs ActivityPub actor) plus the
string id.  Mirrors `self.user.key` / `ActivityPub(id=...).key` in the tests. -/
structure Key where
  kind : String
  id : String
deriving DecidableEq, Repr

/-- Key of a web (IndieAuth-domain) user, as used for `Follower.from_` and the
`users` list of stored activities. -/
def webKey (domain : String) : Key := ⟨"Web", domain⟩

/-- Key of a remote ActivityPub actor, e.g. `ActivityPub(id='https://bar/id').key`. -/
def apKey (id : String) : Key := ⟨"ActivityPub", id⟩

/-- Modelled from the spec: a domain-backed User identity, possibly superseded
by another User via a `use_instead` pointer (stored here as the domain of the
superseding user). -/
structure User where
  domain : String
  useInstead : Option String
deriving DecidableEq, Repr

/-- A remote actor profile document: canonical id, optional profile url, inbox
endpoint (`FOLLOWEE` in the tests). -/
structure Followee where
  id : String
  url : Option String
  inbox : String
deriving DecidableEq, Repr

/-- The public-audience marker placed in a Follow's `to` field
(`as2.PUBLIC_AUDIENCE`). -/
def publicAudience : String := "https://www.w3.org/ns/activitystreams#Public"

/-- An AS2 Follow activity document.  Its `object` is either the full followee
profile or a bare actor-id string (the tests exercise both shapes). -/
structure FollowDoc where
  id : String
  actor : String
  object : Followee ⊕ String
  toAudience : List String
deriving DecidableEq, Repr

/-- An AS2 Undo(Follow) activity document.  Its `object` is the original Follow
document when the stored edge still has it, else the bare Follow id. -/
structure UndoDoc where
  id : String
  actor : String
  object : FollowDoc ⊕ String
deriving DecidableEq, Repr

/-- The AS2 payload of a stored activity record or an outgoing delivery. -/
inductive As2 where
  | follow : FollowDoc → As2
  | undo : UndoDoc → As2
deriving DecidableEq, Repr

/-- The `Follower` relationship edge: composite identity (from user, to actor),
a reference (by object id) to the originating Follow activity, and an
`active`/`inactive` status. -/
structure Follower where
  from_ : Key
  to_ : Key
  follow : String
  status : String
deriving DecidableEq, Repr

/-- A stored activity record (`Object` in the tests): keyed by activity id,
carrying the AS2 document, a status, labels and the involved user/actor keys. -/
structure StoredObject where
  id : String
  as2 : Option As2
  status : String
  labels : List String
  users : List Key
deriving DecidableEq, Repr

/-- The durable store: users, follower edges, activity records, and previously
captured actor profiles (used by the actor fetcher's cached path). -/
structure Store where
  users : List User
  followers : List Follower
  objects : List StoredObject
  actors : List Followee
deriving DecidableEq, Repr

/-- The browser session; `indieauthedMe` models `session['indieauthed-me']`. -/
structure Session where
  indieauthedMe : Option String
deriving DecidableEq, Repr

/-- An outgoing signed inbox POST: target url, activity body, and the HTTP
signature's key id. -/
structure DeliveryRequest where
  url : String
  body : As2
  keyId : String
deriving DecidableEq, Repr

/-- Result of a successful follow/unfollow flow: the committed store, the
delivery that was made, the updated session, and the redirect target. -/
structure FlowResult where
  store : Store
  delivery : DeliveryRequest
  session : Session
  redirect : String
deriving DecidableEq, Repr

/-! ## Identifier derivation (Activity Builder) -/

/-- The acting user's canonical actor/profile URL, e.g.
`http://localhost/alice.com`; also the HTTP-signature key id. -/
def actorUrl (origin domain : String) : String :=
  origin ++ "/" ++ domain

/-- The string `{origin}/{protocol}/{follower-domain}/following`, the common prefix of
follow and undo activity ids. -/
def followingBase (origin protocol domain : String) : String :=
  origin ++ "/" ++ protocol ++ "/" ++ domain ++ "/following"

/-- Follow activity id: `…/following#{timestamp}-{reference}`.  Per the tests
(`FOLLOW_ADDRESS`, `FOLLOW_URL`, `FollowTest.check`) the reference is the raw
address string the user typed. -/
def followActivityId (origin protocol domain timestamp ref : String) : String :=
  followingBase origin protocol domain ++ "#" ++ timestamp ++ "-" ++ ref

/-- Undo activity id: `…/following#undo-{timestamp}-{followee-id}` (the tests
use the followee actor id here, `UNDO_FOLLOW`). -/
def undoActivityId (origin protocol domain timestamp ref : String) : String :=
  followingBase origin protocol domain ++ "#undo-" ++ timestamp ++ "-" ++ ref

/-- The reference the SPEC'S WORDS predict for the Follow id: "the followee's
canonical id if available, else the raw input address string".  Declared only
to compare against the behaviour the tests pin down. -/
def specFolloweeReference (canonicalId : Option String) (addr : String) : String :=
  canonicalId.getD addr

/-- The Follow document built for acting user `u` following `followee`,
as delivered and stored (`FOLLOW_ADDRESS` / `FOLLOW_URL` in the tests). -/
def builtFollow (origin protocol timestamp : String) (u : User) (addr : String)
    (followee : Followee) : FollowDoc :=
  { id := followActivityId origin protocol u.domain timestamp addr
    actor := actorUrl origin u.domain
    object := Sum.inl followee
    toAudience := [publicAudience] }

/-- The Undo document for edge `edge`: its object is the stored Follow document
when available, else the bare follow id; its id references the followee actor
id (`UNDO_FOLLOW` in the tests). -/
def buildUndo (origin protocol timestamp : String) (u : User) (edge : Follower)
    (storedFollow : Option FollowDoc) : UndoDoc :=
  { id := undoActivityId origin protocol u.domain timestamp edge.to_.id
    actor := actorUrl origin u.domain
    object := match storedFollow with
      | some d => Sum.inl d
      | none => Sum.inr edge.follow }

/-! ## Relationship store primitives -/

/-- Look a web user up by domain. -/
def lookupUser (st : Store) (domain : String) : Option User :=
  st.users.find? (fun u => u.domain == domain)

/-- Modelled from the spec: follow the `use_instead` redirect chain with a
bounded-iteration walk to a terminal User (the bound is the fuel argument;
callers use the number of stored users). -/
def resolveUseInstead (st : Store) (u : User) : Nat → User
  | 0 => u
  | n + 1 =>
    match u.useInstead with
    | none => u
    | some d =>
      match lookupUser st d with
      | none => u
      | some u2 => resolveUseInstead st u2 n

/-- Get-or-create semantics for the follower edge keyed by (from, to): the new
edge replaces any existing edge with the same endpoints. -/
def upsertFollower (fs : List Follower) (e : Follower) : List Follower :=
  e :: fs.filter (fun f => !(f.from_ == e.from_ && f.to_ == e.to_))

/-- Idempotent put of an activity record keyed by id. -/
def upsertObject (os : List StoredObject) (o : StoredObject) : List StoredObject :=
  o :: os.filter (fun p => p.id != o.id)

/-- Look a stored activity record up by id. -/
def findObject (st : Store) (id : String) : Option StoredObject :=
  st.objects.find? (fun o => o.id == id)

/-- The Follow document carried by a stored record, when it still has one. -/
def followDocOf : Option StoredObject → Option FollowDoc
  | some o =>
    match o.as2 with
    | some (As2.follow d) => some d
    | _ => none
  | none => none

/-- Modelled from the spec: the single logical commit after a successful Follow
delivery — upsert the (user, actor) edge to `active` pointing at the new
activity, and store the activity with status `complete`, labels
`{user, activity}` and both involved keys. -/
def commitFollow (st : Store) (u : User) (followee : Followee)
    (d : FollowDoc) : Store :=
  let edge : Follower :=
    { from_ := webKey u.domain, to_ := apKey followee.id
      follow := d.id, status := "active" }
  let obj : StoredObject :=
    { id := d.id, as2 := some (As2.follow d), status := "complete"
      labels := ["user", "activity"]
      users := [webKey u.domain, apKey followee.id] }
  { st with
    followers := upsertFollower st.followers edge
    objects := upsertObject st.objects obj }

/-- Modelled from the spec: the single logical commit after a successful Undo
delivery — mark the edge `inactive` and store the Undo activity with status
`complete`; per `UnfollowTest.check` its `users` list holds only the acting
user's key. -/
def commitUnfollow (st : Store) (u : User) (edge : Follower)
    (undo : UndoDoc) : Store :=
  let obj : StoredObject :=
    { id := undo.id, as2 := some (As2.undo undo), status := "complete"
      labels := ["user", "activity"]
      users := [webKey u.domain] }
  { st with
    followers := st.followers.map (fun f =>
      if f.from_ == edge.from_ && f.to_ == edge.to_
      then { f with status := "inactive" } else f)
    objects := upsertObject st.objects obj }

/-! ## Actor fetcher -/

/-- Tagged result of the actor lookup: previously stored profile reused, fresh
network fetch, or failure. -/
inductive FetchResult where
  | cached : Followee → FetchResult
  | fetched : Followee → FetchResult
  | failed : FetchResult
deriving DecidableEq, Repr

/-- Modelled from the spec: look the actor up in the store first and reuse a
stored profile without any network call; otherwise fetch it over the network
(the second component lists the network requests made). -/
def fetchActor (st : Store) (id : String) (network : String → Option Followee) :
    FetchResult × List String :=
  match st.actors.find? (fun a => a.id == id) with
  | some a => (FetchResult.cached a, [])
  | none =>
    match network id with
    | some a => (FetchResult.fetched a, [id])
    | none => (FetchResult.failed, [id])

/-! ## Flow controller: follow and unfollow callbacks

Modelled from the spec (the flow module is not in the source tree): each
function is the success path of the corresponding callback — authentication
verified, followee resolved, delivery accepted — ending in the single logical
commit.  Failure paths are modelled by the `FlowStep` machine below. -/

/-- Modelled from the spec: the follow callback after successful IndieAuth
verification of `me` (owner of `authedDomain`) and successful delivery.
Resolves the acting user through `use_instead`, builds the Follow, delivers it
to the followee's inbox signed with the acting user's key, commits the edge
and the activity, records `indieauthed-me`, and redirects to the user's
following page. -/
def followCallback (origin protocol timestamp : String) (st : Store)
    (sess : Session) (authedDomain me addr : String) (followee : Followee) :
    Option FlowResult :=
  match lookupUser st authedDomain with
  | none => none
  | some u0 =>
    let u := resolveUseInstead st u0 st.users.length
    let d := builtFollow origin protocol timestamp u addr followee
    some
      { store := commitFollow st u followee d
        delivery :=
          { url := followee.inbox, body := As2.follow d
            keyId := actorUrl origin u.domain }
        session := { sess with indieauthedMe := some me }
        redirect := "/" ++ protocol ++ "/" ++ u.domain ++ "/following" }

/-- Modelled from the spec: the unfollow callback after successful IndieAuth
verification and delivery.  The edge comes from the state bag's stored
relationship key; ids, actor URLs and stored keys use the `use_instead`
terminal user. -/
def unfollowCallback (origin protocol timestamp : String) (st : Store)
    (sess : Session) (authedDomain me : String) (edgeFrom edgeTo : Key)
    (followee : Followee) : Option FlowResult :=
  match lookupUser st authedDomain with
  | none => none
  | some u0 =>
    match st.followers.find? (fun f => f.from_ == edgeFrom && f.to_ == edgeTo) with
    | none => none
    | some edge =>
      let u := resolveUseInstead st u0 st.users.length
      let undo := buildUndo origin protocol timestamp u edge
        (followDocOf (findObject st edge.follow))
      some
        { store := commitUnfollow st u edge undo
          delivery :=
            { url := followee.inbox, body := As2.undo undo
              keyId := actorUrl origin u.domain }
          session := { sess with indieauthedMe := some me }
          redirect := "/" ++ protocol ++ "/" ++ u.domain ++ "/following" }

/-- Outcome of a `/follow/start` or `/unfollow/start` request. -/
inductive StartOutcome where
  | authRedirect : StartOutcome
  | direct : FlowResult → StartOutcome
  | clientError : StartOutcome
deriving DecidableEq, Repr

/-- The domain claimed by a `me` URL (`https://alice.com` → `alice.com`). -/
def domainOfMe (me : String) : String :=
  match me.splitOn "://" with
  | [_, d] => d
  | _ => me

/-- Modelled from the spec: `/follow/start`.  Only when the session already
carries `indieauthed-me` equal to the claimed `me` does it skip the external
authentication redirect and run the flow directly; otherwise it redirects to
the authentication provider and writes nothing. -/
def followStart (origin protocol timestamp : String) (st : Store)
    (sess : Session) (me addr : String) (followee : Followee) : StartOutcome :=
  if sess.indieauthedMe == some me then
    match followCallback origin protocol timestamp st sess (domainOfMe me) me
        addr followee with
    | some r => StartOutcome.direct r
    | none => StartOutcome.clientError
  else StartOutcome.authRedirect

/-- Modelled from the spec: `/unfollow/start`, analogous to `followStart`. -/
def unfollowStart (origin protocol timestamp : String) (st : Store)
    (sess : Session) (me : String) (edgeFrom edgeTo : Key)
    (followee : Followee) : StartOutcome :=
  if sess.indieauthedMe == some me then
    match unfollowCallback origin protocol timestamp st sess (domainOfMe me) me
        edgeFrom edgeTo followee with
    | some r => StartOutcome.direct r
    | none => StartOutcome.clientError
  else StartOutcome.authRedirect

/-! ## `/remote-follow` endpoint -/

/-- A webfinger link entry (`rel`, optional `template`). -/
structure WebfingerLink where
  rel : String
  template : Option String
deriving DecidableEq, Repr

/-- What webfinger discovery produced: a parsed link list, an HTTP error, or a
non-JSON body. -/
inductive WebfingerResult where
  | ok : List WebfingerLink → WebfingerResult
  | httpError : WebfingerResult
  | notJson : WebfingerResult
deriving DecidableEq, Repr

/-- The subscribe template among the discovered links, when present. -/
def subscribeTemplate (links : List WebfingerLink) : Option String :=
  match links.find? (fun l =>
      l.rel == "http://ostatus.org/schema/1.0/subscribe" && l.template.isSome) with
  | some l => l.template
  | none => none

/-- Modelled from the spec: `POST /remote-follow` once parameters are read.
Missing address/domain/protocol, an unsupported protocol or an unknown user
give 400; otherwise the response is a 302 redirect, either to the subscribe
template with `\x7buri\x7d` substituted by `@domain@domain`, or — when
discovery failed or exposed no subscribe link — to the local `/web/{domain}`
page. -/
def remoteFollowEndpoint (address? domain? protocol? : Option String)
    (userExists : Bool) (wf : WebfingerResult) : Nat × String :=
  match address?, domain?, protocol? with
  | some _, some domain, some protocol =>
    if protocol != "web" then (400, "")
    else if !userExists then (400, "")
    else
      let fallback := (302, "/web/" ++ domain)
      match wf with
      | WebfingerResult.httpError => fallback
      | WebfingerResult.notJson => fallback
      | WebfingerResult.ok links =>
        match subscribeTemplate links with
        | some t =>
          (302, t.replace "\x7buri\x7d" ("@" ++ domain ++ "@" ++ domain))
        | none => fallback
  | _, _, _ => (400, "")

/-! ## `/responses` endpoint (`src/logs.py`) -/

/-- A `Response` record as queried by `logs.responses`: status plus the
`updated` timestamp it is ordered by. -/
structure LogResponse where
  id : String
  status : String
  updated : Nat
deriving DecidableEq, Repr

/-- Descending-by-`updated` order used by `.order(-Response.updated)`. -/
def updatedDesc (a b : LogResponse) : Prop := b.updated ≤ a.updated

instance : DecidableRel updatedDesc := fun a b => Nat.decLe b.updated a.updated

instance : IsTotal LogResponse updatedDesc :=
  ⟨fun a b => Nat.le_total b.updated a.updated⟩

instance : IsTrans LogResponse updatedDesc :=
  ⟨fun _ _ _ h1 h2 => Nat.le_trans h2 h1⟩

/-- The query in `logs.responses`:
`Response.query().filter(Response.status.IN(('new', 'complete', 'error')))
.order(-Response.updated).fetch(20)`. -/
def responsesQuery (store : List LogResponse) : List LogResponse :=
  ((store.filter (fun r =>
      r.status == "new" || r.status == "complete" || r.status == "error")).insertionSort
    updatedDesc).take 20

/-! ## Flow-controller state machine (spec section 4.6)

Modelled from the spec: phases `START → AUTH_PENDING → AUTH_CALLBACK →
RESOLVING → DELIVERING → COMMITTED`, with `FAILED` reachable from any phase.
The store changes only in the commit transition. -/

/-- A phase of one follow/unfollow flow. -/
inductive Phase where
  | start | authPending | authCallback | resolving | delivering
  | committed | failed
deriving DecidableEq, Repr

/-- Allowed store-preserving phase advances. -/
def advanceOk : Phase → Phase → Prop
  | Phase.start, Phase.authPending => True
  | Phase.start, Phase.resolving => True
  | Phase.authPending, Phase.authCallback => True
  | Phase.authCallback, Phase.resolving => True
  | Phase.resolving, Phase.delivering => True
  | _, _ => False

instance : DecidableRel advanceOk := fun p q => by
  cases p <;> cases q <;> simp only [advanceOk] <;> infer_instance

/-- A flow state: current phase plus the durable store. -/
structure MachineState where
  phase : Phase
  store : Store
deriving DecidableEq, Repr

/-- One transition of the follow/unfollow flow.  Every step except the two
commit steps leaves the store untouched; a failure at any phase moves to
`failed` with the store unchanged (partial failure commits nothing). -/
inductive FlowStep : MachineState → MachineState → Prop where
  | advance (p q : Phase) (st : Store) (h : advanceOk p q) :
      FlowStep ⟨p, st⟩ ⟨q, st⟩
  | commitFollowStep (st : Store) (u : User) (followee : Followee)
      (d : FollowDoc) :
      FlowStep ⟨Phase.delivering, st⟩
        ⟨Phase.committed, commitFollow st u followee d⟩
  | commitUnfollowStep (st : Store) (u : User) (origin protocol ts : String)
      (edge : Follower) (h : edge ∈ st.followers) :
      FlowStep ⟨Phase.delivering, st⟩
        ⟨Phase.committed,
          commitUnfollow st u edge
            (buildUndo origin protocol ts u edge
              (followDocOf (findObject st edge.follow)))⟩
  | fail (p : Phase) (st : Store) : FlowStep ⟨p, st⟩ ⟨Phase.failed, st⟩

/-- Reachability in the flow machine. -/
inductive Reachable (init : MachineState) : MachineState → Prop where
  | refl : Reachable init init
  | step {s s' : MachineState} :
      Reachable init s → FlowStep s s' → Reachable init s'

/-- Every `active` follower edge has a `complete` stored activity record under
the id its `follow` field references. -/
def followerActiveInv (st : Store) : Prop :=
  ∀ f ∈ st.followers, f.status = "active" →
    ∃ o ∈ st.objects, o.id = f.follow ∧ o.status = "complete"

/-- Stored Follow records are keyed by their document's id. -/
def objectIdWF (st : Store) : Prop :=
  ∀ o ∈ st.objects, ∀ d, o.as2 = some (As2.follow d) → d.id = o.id

/-- The follow id an Undo document points back at. -/
def undoFollowRef (u : UndoDoc) : String :=
  match u.object with
  | Sum.inl d => d.id
  | Sum.inr s => s

/-- The follower edge consistent with a freshly stored `complete` activity:
for a Follow, the edge references it and is active; for an Undo, the edge is
inactive and its follow field is the one the Undo references. -/
def edgeUpdatedFor (o : StoredObject) (f : Follower) : Prop :=
  match o.as2 with
  | some (As2.follow _) => f.follow = o.id ∧ f.status = "active"
  | some (As2.undo u) => f.follow = undoFollowRef u ∧ f.status = "inactive"
  | none => False

/-! ## Concrete fixtures mirroring `src/tests/test_follow.py` -/

/-- The `common.host_url` origin in the tests. -/
def testOrigin : String := "http://localhost"

/-- The `testutil.NOW` timestamp baked into the expected activity ids. -/
def testTs : String := "2022-01-02T03:04:05"

/-- The acting user `alice.com`. -/
def aliceUser : User := { domain := "alice.com", useInstead := none }

/-- The `FOLLOWEE` actor profile from the tests. -/
def testFollowee : Followee :=
  { id := "https://bar/id", url := some "https://bar/url"
    inbox := "http://bar/inbox" }

/-- Store at the start of `FollowTest`: just the user `alice.com`. -/
def followTestStore : Store :=
  { users := [aliceUser], followers := [], objects := [], actors := [] }

/-- The expected Follow document `FOLLOW_ADDRESS` (input `@foo@bar`). -/
def followAddressDoc : FollowDoc :=
  builtFollow testOrigin "web" testTs aliceUser "@foo@bar" testFollowee

/-- Store at the start of `UnfollowTest`: an active edge for
(alice.com, https://bar/id) whose follow record holds `FOLLOW_ADDRESS`. -/
def unfollowTestStore : Store :=
  { users := [aliceUser]
    followers := [{ from_ := webKey "alice.com", to_ := apKey "https://bar/id"
                    follow := followAddressDoc.id, status := "active" }]
    objects := [{ id := followAddressDoc.id
                  as2 := some (As2.follow followAddressDoc)
                  status := "complete", labels := ["user", "activity"]
                  users := [webKey "alice.com", apKey "https://bar/id"] }]
    actors := [] }

/-- The `UnfollowTest` store after the edge's follow record was reduced to a bare
id (no stored AS2 document), exercising the bare-id Undo object branch. -/
def unfollowBareStore : Store :=
  { unfollowTestStore with
    objects := [{ id := followAddressDoc.id, as2 := none
                  status := "complete", labels := ["user", "activity"]
                  users := [webKey "alice.com", apKey "https://bar/id"] }] }

/-- Store of `FollowTest.test_callback_user_use_instead`: `alice.com` redirects to the
terminal user `www.alice.com`. -/
def useInsteadStore : Store :=
  { users := [{ domain := "alice.com", useInstead := some "www.alice.com" },
              { domain := "www.alice.com", useInstead := none }]
    followers := [], objects := [], actors := [] }

/-- Store of `UnfollowTest.test_callback_user_use_instead`: the redirected user plus the
original user's active edge. -/
def useInsteadUnfollowStore : Store :=
  { useInsteadStore with
    followers := unfollowTestStore.followers
    objects := unfollowTestStore.objects }

/-! ## Observation helpers -/

/-- The id of the delivered activity of a flow result. -/
def deliveredId : Option FlowResult → Option String
  | some r =>
    match r.delivery.body with
    | As2.follow d => some d.id
    | As2.undo u => some u.id
  | none => none

/-- The objects committed by a flow result. -/
def storedObjects : Option FlowResult → List StoredObject
  | some r => r.store.objects
  | none => []

/-- The `users` key list of the stored activity record with the given id. -/
def usersOfStored (res : Option FlowResult) (id : String) : Option (List Key) :=
  (storedObjects res).find? (fun o => o.id == id) |>.map (fun o => o.users)

/-- The status of the stored activity record with the given id. -/
def statusOfStored (res : Option FlowResult) (id : String) : Option String :=
  (storedObjects res).find? (fun o => o.id == id) |>.map (fun o => o.status)

/-- A small concrete `Response` store used to instantiate the `/responses`
theorem. -/
def demoResponses : List LogResponse :=
  [{ id := "a", status := "complete", updated := 5 },
   { id := "b", status := "ignored", updated := 9 },
   { id := "c", status := "new", updated := 7 },
   { id := "d", status := "error", updated := 3 }]

/-- Webfinger links of the `RemoteFollowTest` fixture. -/
def testWebfingerLinks : List WebfingerLink :=
  [{ rel := "http://ostatus.org/schema/1.0/subscribe"
     template := some "https://bar/follow?uri=\x7buri\x7d" }]

/-! ## Theorems -/

/-- C5: for every `/remote-follow` request with valid address, domain and
protocol, the response is a 302 redirect — never a 5xx — either to the
discovered subscribe template with the uri placeholder substituted, or, when
discovery failed (HTTP error, non-JSON body, or no subscribe link), to the
local `/web/{domain}` page. -/
theorem c5_remote_follow_redirects (address domain protocol : String)
    (userExists : Bool) (wf : WebfingerResult)
    (hp : protocol = "web") (hu : userExists = true) :
    (remoteFollowEndpoint (some address) (some domain) (some protocol)
        userExists wf).1 = 302 ∧
    ((∃ links t, wf = WebfingerResult.ok links ∧
        subscribeTemplate links = some t ∧
        (remoteFollowEndpoint (some address) (some domain) (some protocol)
            userExists wf).2 =
          t.replace "\x7buri\x7d" ("@" ++ domain ++ "@" ++ domain)) ∨
      (remoteFollowEndpoint (some address) (some domain) (some protocol)
          userExists wf).2 = "/web/" ++ domain) := by
  subst hp hu
  cases wf with
  | ok links =>
    cases h : subscribeTemplate links with
    | some t =>
      refine ⟨by simp [remoteFollowEndpoint, h], Or.inl ⟨links, t, rfl, h, ?_⟩⟩
      simp [remoteFollowEndpoint, h]
    | none => exact ⟨by simp [remoteFollowEndpoint, h],
        Or.inr (by simp [remoteFollowEndpoint, h])⟩
  | httpError => exact ⟨rfl, Or.inr rfl⟩
  | notJson => exact ⟨rfl, Or.inr rfl⟩

/-- Witness for C5 at the `RemoteFollowTest.test` fixture. -/
theorem c5_remote_follow_redirects_witness :
    (remoteFollowEndpoint (some "@foo@bar") (some "user.com") (some "web") true
        (WebfingerResult.ok testWebfingerLinks)).1 = 302 ∧
    ((∃ links t, WebfingerResult.ok testWebfingerLinks = WebfingerResult.ok links ∧
        subscribeTemplate links = some t ∧
        (remoteFollowEndpoint (some "@foo@bar") (some "user.com") (some "web") true
            (WebfingerResult.ok testWebfingerLinks)).2 =
          t.replace "\x7buri\x7d" ("@" ++ "user.com" ++ "@" ++ "user.com")) ∨
      (remoteFollowEndpoint (some "@foo@bar") (some "user.com") (some "web") true
          (WebfingerResult.ok testWebfingerLinks)).2 = "/web/" ++ "user.com") :=
  c5_remote_follow_redirects "@foo@bar" "user.com" "web" true
    (WebfingerResult.ok testWebfingerLinks) rfl rfl

/-- C8: when the target actor already has a stored profile record, the actor
fetcher reuses it, performs no network request, and the reused path carries
the explicit `cached` tag, distinct from the fresh-fetch tag. -/
theorem c8_actor_fetch_reuses_stored (st : Store) (id : String)
    (network : String → Option Followee) (a : Followee)
    (h : st.actors.find? (fun a => a.id == id) = some a) :
    fetchActor st id network = (FetchResult.cached a, []) ∧
      ∀ b : Followee, FetchResult.cached a ≠ FetchResult.fetched b := by
  refine ⟨by simp [fetchActor, h], by intro b hcb; cases hcb⟩

/-- Witness for C8: a store already holding the `FOLLOWEE` profile. -/
theorem c8_actor_fetch_reuses_stored_witness :
    fetchActor { followTestStore with actors := [testFollowee] } "https://bar/id"
        (fun _ => none) = (FetchResult.cached testFollowee, []) ∧
      ∀ b : Followee, FetchResult.cached testFollowee ≠ FetchResult.fetched b :=
  c8_actor_fetch_reuses_stored { followTestStore with actors := [testFollowee] }
    "https://bar/id" (fun _ => none) testFollowee (by decide)

/-- C10: `/responses` renders only records whose status is `new`, `complete`
or `error`, most-recently-updated first, and at most 20 of them. -/
theorem c10_responses_query (store : List LogResponse) :
    (∀ r ∈ responsesQuery store,
        r.status = "new" ∨ r.status = "complete" ∨ r.status = "error") ∧
    List.Sorted updatedDesc (responsesQuery store) ∧
    (responsesQuery store).length ≤ 20 := by
  refine ⟨?_, ?_, ?_⟩
  · intro r hr
    have h1 : r ∈ (store.filter (fun r =>
        r.status == "new" || r.status == "complete" ||
          r.status == "error")).insertionSort updatedDesc :=
      List.take_subset _ _ hr
    have h2 := (List.perm_insertionSort updatedDesc _).mem_iff.mp h1
    have h3 := (List.mem_filter.mp h2).2
    simp only [Bool.or_eq_true, beq_iff_eq] at h3
    tauto
  · exact List.Pairwise.sublist (List.take_sublist _ _)
      (List.sorted_insertionSort updatedDesc _)
  · simp only [responsesQuery]
    exact List.length_take_le 20 _

/-- Witness for C10 at a concrete four-record store. -/
theorem c10_responses_query_witness :
    (∀ r ∈ responsesQuery demoResponses,
        r.status = "new" ∨ r.status = "complete" ∨ r.status = "error") ∧
    List.Sorted updatedDesc (responsesQuery demoResponses) ∧
    (responsesQuery demoResponses).length ≤ 20 :=
  c10_responses_query demoResponses

/-- A user with no `use_instead` pointer resolves to itself at any fuel. -/
theorem resolveUseInstead_terminal (st : Store) (u : User)
    (h : u.useInstead = none) : ∀ n, resolveUseInstead st u n = u
  | 0 => rfl
  | n + 1 => by simp [resolveUseInstead, h]

/-- A one-step `use_instead` chain to a terminal user resolves to that user
whenever any fuel is available. -/
theorem resolveUseInstead_step (st : Store) (u0 u1 : User) (d1 : String)
    (h0 : u0.useInstead = some d1) (h1 : lookupUser st d1 = some u1)
    (ht : u1.useInstead = none) (n : Nat) (hn : n ≠ 0) :
    resolveUseInstead st u0 n = u1 := by
  cases n with
  | zero => exact absurd rfl hn
  | succ m => simp [resolveUseInstead, h0, h1, resolveUseInstead_terminal st u1 ht]

/-- A successful user lookup means the user list is non-empty. -/
theorem lookupUser_length_ne_zero (st : Store) (d : String) (u : User)
    (h : lookupUser st d = some u) : st.users.length ≠ 0 := by
  have hm : u ∈ st.users := List.mem_of_find?_eq_some h
  cases hl : st.users with
  | nil => rw [hl] at hm; cases hm
  | cons a l => simp

/-- C9: a successful follow or unfollow callback stores the verified identity
under `indieauthed-me`, and it is this callback-side write — not the start
endpoint, which writes nothing on its redirect path — that lets a later
`/follow/start` or `/unfollow/start` for the same identity skip the external
authentication redirect; a non-matching session still redirects. -/
theorem c9_indieauthed_session (origin protocol ts : String) (st : Store)
    (sess : Session) (authedDomain me addr : String) (followee : Followee)
    (edgeFrom edgeTo : Key) :
    (∀ r, followCallback origin protocol ts st sess authedDomain me addr
        followee = some r → r.session.indieauthedMe = some me) ∧
    (∀ r, unfollowCallback origin protocol ts st sess authedDomain me edgeFrom
        edgeTo followee = some r → r.session.indieauthedMe = some me) ∧
    (∀ r, followCallback origin protocol ts st sess authedDomain me addr
        followee = some r →
      ∀ (ts2 addr2 : String) (st2 : Store) (followee2 : Followee),
        followStart origin protocol ts2 st2 r.session me addr2 followee2 ≠
          StartOutcome.authRedirect) ∧
    (∀ r, unfollowCallback origin protocol ts st sess authedDomain me edgeFrom
        edgeTo followee = some r →
      ∀ (ts2 : String) (st2 : Store) (eF eT : Key) (followee2 : Followee),
        unfollowStart origin protocol ts2 st2 r.session me eF eT followee2 ≠
          StartOutcome.authRedirect) ∧
    (∀ sess2 : Session, sess2.indieauthedMe ≠ some me →
      followStart origin protocol ts st sess2 me addr followee =
        StartOutcome.authRedirect) ∧
    (∀ sess2 : Session, sess2.indieauthedMe ≠ some me →
      unfollowStart origin protocol ts st sess2 me edgeFrom edgeTo followee =
        StartOutcome.authRedirect) := by
  have hfc : ∀ r, followCallback origin protocol ts st sess authedDomain me addr
      followee = some r → r.session.indieauthedMe = some me := by
    intro r hr
    unfold followCallback at hr
    cases hl : lookupUser st authedDomain with
    | none => rw [hl] at hr; cases hr
    | some u0 => rw [hl] at hr; cases hr; rfl
  have huc : ∀ r, unfollowCallback origin protocol ts st sess authedDomain me
      edgeFrom edgeTo followee = some r → r.session.indieauthedMe = some me := by
    intro r hr
    unfold unfollowCallback at hr
    cases hl : lookupUser st authedDomain with
    | none => rw [hl] at hr; cases hr
    | some u0 =>
      rw [hl] at hr
      cases he : st.followers.find? (fun f => f.from_ == edgeFrom && f.to_ == edgeTo) with
      | none => rw [he] at hr; cases hr
      | some edge => rw [he] at hr; cases hr; rfl
  refine ⟨hfc, huc, ?_, ?_, ?_, ?_⟩
  · intro r hr ts2 addr2 st2 followee2
    have hs := hfc r hr
    unfold followStart
    rw [hs]
    simp only [beq_self_eq_true, if_true]
    cases followCallback origin protocol ts2 st2 r.session (domainOfMe me) me
        addr2 followee2 <;> simp
  · intro r hr ts2 st2 eF eT followee2
    have hs := huc r hr
    unfold unfollowStart
    rw [hs]
    simp only [beq_self_eq_true, if_true]
    cases unfollowCallback origin protocol ts2 st2 r.session (domainOfMe me) me
        eF eT followee2 <;> simp
  · intro sess2 hne
    unfold followStart
    simp [beq_eq_false_iff_ne.mpr hne]
  · intro sess2 hne
    unfold unfollowStart
    simp [beq_eq_false_iff_ne.mpr hne]

/-- Witness for C9 at the `FollowTest`/`UnfollowTest` fixtures. -/
theorem c9_indieauthed_session_witness :
    (∀ r, followCallback testOrigin "web" testTs followTestStore ⟨none⟩
        "alice.com" "https://alice.com" "@foo@bar" testFollowee = some r →
      r.session.indieauthedMe = some "https://alice.com") ∧
    (∀ r, unfollowCallback testOrigin "web" testTs followTestStore ⟨none⟩
        "alice.com" "https://alice.com" (webKey "alice.com")
        (apKey "https://bar/id") testFollowee = some r →
      r.session.indieauthedMe = some "https://alice.com") ∧
    (∀ r, followCallback testOrigin "web" testTs followTestStore ⟨none⟩
        "alice.com" "https://alice.com" "@foo@bar" testFollowee = some r →
      ∀ (ts2 addr2 : String) (st2 : Store) (followee2 : Followee),
        followStart testOrigin "web" ts2 st2 r.session "https://alice.com"
          addr2 followee2 ≠ StartOutcome.authRedirect) ∧
    (∀ r, unfollowCallback testOrigin "web" testTs followTestStore ⟨none⟩
        "alice.com" "https://alice.com" (webKey "alice.com")
        (apKey "https://bar/id") testFollowee = some r →
      ∀ (ts2 : String) (st2 : Store) (eF eT : Key) (followee2 : Followee),
        unfollowStart testOrigin "web" ts2 st2 r.session "https://alice.com"
          eF eT followee2 ≠ StartOutcome.authRedirect) ∧
    (∀ sess2 : Session, sess2.indieauthedMe ≠ some "https://alice.com" →
      followStart testOrigin "web" testTs followTestStore sess2
        "https://alice.com" "@foo@bar" testFollowee =
          StartOutcome.authRedirect) ∧
    (∀ sess2 : Session, sess2.indieauthedMe ≠ some "https://alice.com" →
      unfollowStart testOrigin "web" testTs followTestStore sess2
        "https://alice.com" (webKey "alice.com") (apKey "https://bar/id")
        testFollowee = StartOutcome.authRedirect) :=
  c9_indieauthed_session testOrigin "web" testTs followTestStore ⟨none⟩
    "alice.com" "https://alice.com" "@foo@bar" testFollowee
    (webKey "alice.com") (apKey "https://bar/id")

/-- C7: every delivered follow or unfollow activity is POSTed to the followee
actor's inbox URL, and the HTTP signature key id is the acting user's
canonical profile URL (the `use_instead`-terminal user of the authenticated
domain). -/
theorem c7_delivery_contract (origin protocol ts : String) (st : Store)
    (sess : Session) (authedDomain me addr : String) (followee : Followee)
    (edgeFrom edgeTo : Key) (u0 : User)
    (hu : lookupUser st authedDomain = some u0) :
    (∀ r, followCallback origin protocol ts st sess authedDomain me addr
        followee = some r →
      r.delivery.url = followee.inbox ∧
      r.delivery.keyId =
        actorUrl origin (resolveUseInstead st u0 st.users.length).domain ∧
      r.delivery.body = As2.follow (builtFollow origin protocol ts
        (resolveUseInstead st u0 st.users.length) addr followee)) ∧
    (∀ r, unfollowCallback origin protocol ts st sess authedDomain me edgeFrom
        edgeTo followee = some r →
      r.delivery.url = followee.inbox ∧
      r.delivery.keyId =
        actorUrl origin (resolveUseInstead st u0 st.users.length).domain ∧
      ∃ ud, r.delivery.body = As2.undo ud ∧
        ud.actor = actorUrl origin (resolveUseInstead st u0 st.users.length).domain) := by
  constructor
  · intro r hr
    unfold followCallback at hr
    rw [hu] at hr
    cases hr
    exact ⟨rfl, rfl, rfl⟩
  · intro r hr
    unfold unfollowCallback at hr
    rw [hu] at hr
    cases he : st.followers.find? (fun f => f.from_ == edgeFrom && f.to_ == edgeTo) with
    | none => rw [he] at hr; cases hr
    | some edge =>
      rw [he] at hr
      cases hr
      exact ⟨rfl, rfl, _, rfl, rfl⟩

/-- Witness for C7 at the `FollowTest.test_callback_address` fixture. -/
theorem c7_delivery_contract_witness :
    (∀ r, followCallback testOrigin "web" testTs followTestStore ⟨none⟩
        "alice.com" "https://alice.com" "@foo@bar" testFollowee = some r →
      r.delivery.url = testFollowee.inbox ∧
      r.delivery.keyId = actorUrl testOrigin
        (resolveUseInstead followTestStore aliceUser
          followTestStore.users.length).domain ∧
      r.delivery.body = As2.follow (builtFollow testOrigin "web" testTs
        (resolveUseInstead followTestStore aliceUser
          followTestStore.users.length) "@foo@bar" testFollowee)) ∧
    (∀ r, unfollowCallback testOrigin "web" testTs followTestStore ⟨none⟩
        "alice.com" "https://alice.com" (webKey "alice.com")
        (apKey "https://bar/id") testFollowee = some r →
      r.delivery.url = testFollowee.inbox ∧
      r.delivery.keyId = actorUrl testOrigin
        (resolveUseInstead followTestStore aliceUser
          followTestStore.users.length).domain ∧
      ∃ ud, r.delivery.body = As2.undo ud ∧
        ud.actor = actorUrl testOrigin
          (resolveUseInstead followTestStore aliceUser
            followTestStore.users.length).domain) :=
  c7_delivery_contract testOrigin "web" testTs followTestStore ⟨none⟩
    "alice.com" "https://alice.com" "@foo@bar" testFollowee
    (webKey "alice.com") (apKey "https://bar/id") aliceUser (by decide)

/-- C2 counterexample, from `FollowTest.test_callback_address`: the followee's
canonical actor id `https://bar/id` is available (it is the fetched profile's
id), yet the delivered Follow id ends in the raw typed address `@foo@bar`, not
in the canonical id the claim predicts. -/
theorem c2_counterexample :
    deliveredId (followCallback testOrigin "web" testTs followTestStore ⟨none⟩
        "alice.com" "https://alice.com" "@foo@bar" testFollowee) =
      some (followActivityId testOrigin "web" "alice.com" testTs "@foo@bar") ∧
    specFolloweeReference (some testFollowee.id) "@foo@bar" = "https://bar/id" ∧
    deliveredId (followCallback testOrigin "web" testTs followTestStore ⟨none⟩
        "alice.com" "https://alice.com" "@foo@bar" testFollowee) ≠
      some (followActivityId testOrigin "web" "alice.com" testTs
        (specFolloweeReference (some testFollowee.id) "@foo@bar")) :=
  ⟨by decide, by decide, by decide⟩

/-- C2 (amended): the Follow activity id has the shape
`{origin}/{protocol}/{follower-domain}/following#{timestamp}-{reference}`
with the follower domain of the `use_instead`-terminal acting user, and the
reference is ALWAYS the raw input address string the user typed, even when a
canonical followee id is available. -/
theorem c2_follow_id_raw_address (origin protocol ts : String) (st : Store)
    (sess : Session) (authedDomain me addr : String) (followee : Followee)
    (u0 : User) (hu : lookupUser st authedDomain = some u0) :
    ∀ r, followCallback origin protocol ts st sess authedDomain me addr
        followee = some r →
      deliveredId (some r) =
        some (followingBase origin protocol
            (resolveUseInstead st u0 st.users.length).domain ++
          "#" ++ ts ++ "-" ++ addr) := by
  intro r hr
  unfold followCallback at hr
  rw [hu] at hr
  cases hr
  rfl

/-- Witness for the amended C2 at the `FollowTest.test_callback_url` input. -/
theorem c2_follow_id_raw_address_witness :
    deliveredId (followCallback testOrigin "web" testTs followTestStore ⟨none⟩
        "alice.com" "https://alice.com" "https://bar/actor" testFollowee) =
      some (followingBase testOrigin "web"
          (resolveUseInstead followTestStore aliceUser
            followTestStore.users.length).domain ++
        "#" ++ testTs ++ "-" ++ "https://bar/actor") := by
  cases hr : followCallback testOrigin "web" testTs followTestStore ⟨none⟩
      "alice.com" "https://alice.com" "https://bar/actor" testFollowee with
  | none => exact absurd hr (by decide)
  | some r =>
    exact c2_follow_id_raw_address testOrigin "web" testTs followTestStore
      ⟨none⟩ "alice.com" "https://alice.com" "https://bar/actor" testFollowee
      aliceUser (by decide) r hr

/-- The just-upserted record is found under its id. -/
theorem find?_upsertObject (os : List StoredObject) (o : StoredObject)
    (id : String) (h : o.id = id) :
    (upsertObject os o).find? (fun p => p.id == id) = some o := by
  unfold upsertObject
  exact List.find?_cons_of_pos _ (by simp [h])

/-- C6 counterexample, from `UnfollowTest.check`: the Undo activity stored
after a successful unfollow delivery is `complete`, but its `users` list holds
only the acting user's key — the followee actor's key is absent, contradicting
the claim that Follow and Undo alike store both keys. -/
theorem c6_counterexample :
    statusOfStored (unfollowCallback testOrigin "web" testTs unfollowTestStore
        ⟨none⟩ "alice.com" "https://alice.com" (webKey "alice.com")
        (apKey "https://bar/id") testFollowee)
      (undoActivityId testOrigin "web" "alice.com" testTs "https://bar/id") =
      some "complete" ∧
    usersOfStored (unfollowCallback testOrigin "web" testTs unfollowTestStore
        ⟨none⟩ "alice.com" "https://alice.com" (webKey "alice.com")
        (apKey "https://bar/id") testFollowee)
      (undoActivityId testOrigin "web" "alice.com" testTs "https://bar/id") =
      some [webKey "alice.com"] ∧
    ¬ ∃ us, usersOfStored (unfollowCallback testOrigin "web" testTs
        unfollowTestStore ⟨none⟩ "alice.com" "https://alice.com"
        (webKey "alice.com") (apKey "https://bar/id") testFollowee)
      (undoActivityId testOrigin "web" "alice.com" testTs "https://bar/id") =
        some us ∧ apKey "https://bar/id" ∈ us :=
  ⟨by decide, by decide, by decide⟩

/-- C6 (amended): every activity record persisted after a successful delivery
is stored with status `complete` and labels `{user, activity}`; a Follow
record's `users` holds both the acting user's and the followee actor's keys,
while an Undo record's `users` holds only the acting user's key. -/
theorem c6_stored_activity_records (origin protocol ts : String) (st : Store)
    (sess : Session) (authedDomain me addr : String) (followee : Followee)
    (edgeFrom edgeTo : Key) (u0 : User)
    (hu : lookupUser st authedDomain = some u0) :
    (∀ r, followCallback origin protocol ts st sess authedDomain me addr
        followee = some r →
      ∃ o, findObject r.store (followActivityId origin protocol
          (resolveUseInstead st u0 st.users.length).domain ts addr) = some o ∧
        o.status = "complete" ∧ o.labels = ["user", "activity"] ∧
        o.users = [webKey (resolveUseInstead st u0 st.users.length).domain,
          apKey followee.id]) ∧
    (∀ r edge,
      st.followers.find? (fun f => f.from_ == edgeFrom && f.to_ == edgeTo) =
        some edge →
      unfollowCallback origin protocol ts st sess authedDomain me edgeFrom
        edgeTo followee = some r →
      ∃ o, findObject r.store (undoActivityId origin protocol
          (resolveUseInstead st u0 st.users.length).domain ts edge.to_.id) =
            some o ∧
        o.status = "complete" ∧ o.labels = ["user", "activity"] ∧
        o.users = [webKey (resolveUseInstead st u0 st.users.length).domain]) := by
  constructor
  · intro r hr
    unfold followCallback at hr
    rw [hu] at hr
    cases hr
    exact ⟨_, find?_upsertObject _ _ _ rfl, rfl, rfl, rfl⟩
  · intro r edge he hr
    unfold unfollowCallback at hr
    rw [hu, he] at hr
    cases hr
    exact ⟨_, find?_upsertObject _ _ _ rfl, rfl, rfl, rfl⟩

/-- Witness for the amended C6 at the test fixtures. -/
theorem c6_stored_activity_records_witness :
    (∀ r, followCallback testOrigin "web" testTs unfollowTestStore ⟨none⟩
        "alice.com" "https://alice.com" "@foo@bar" testFollowee = some r →
      ∃ o, findObject r.store (followActivityId testOrigin "web"
          (resolveUseInstead unfollowTestStore aliceUser
            unfollowTestStore.users.length).domain testTs "@foo@bar") = some o ∧
        o.status = "complete" ∧ o.labels = ["user", "activity"] ∧
        o.users = [webKey (resolveUseInstead unfollowTestStore aliceUser
            unfollowTestStore.users.length).domain, apKey testFollowee.id]) ∧
    (∀ r edge,
      unfollowTestStore.followers.find? (fun f =>
        f.from_ == webKey "alice.com" && f.to_ == apKey "https://bar/id") =
          some edge →
      unfollowCallback testOrigin "web" testTs unfollowTestStore ⟨none⟩
        "alice.com" "https://alice.com" (webKey "alice.com")
        (apKey "https://bar/id") testFollowee = some r →
      ∃ o, findObject r.store (undoActivityId testOrigin "web"
          (resolveUseInstead unfollowTestStore aliceUser
            unfollowTestStore.users.length).domain testTs edge.to_.id) =
              some o ∧
        o.status = "complete" ∧ o.labels = ["user", "activity"] ∧
        o.users = [webKey (resolveUseInstead unfollowTestStore aliceUser
            unfollowTestStore.users.length).domain]) :=
  c6_stored_activity_records testOrigin "web" testTs unfollowTestStore ⟨none⟩
    "alice.com" "https://alice.com" "@foo@bar" testFollowee
    (webKey "alice.com") (apKey "https://bar/id") aliceUser (by decide)

/-- C4: when the authenticated user has a `use_instead` pointer to a terminal
user, every generated id and actor URL, the signature key id, the Follower
edge, the stored activity's `users` keys and the redirect all use the terminal
user's domain, for the follow flow and for the unfollow flow alike. -/
theorem c4_use_instead_terminal_user (origin protocol ts : String) (st : Store)
    (sess : Session) (authedDomain me addr : String) (followee : Followee)
    (edgeFrom edgeTo : Key) (u0 u1 : User) (d1 : String)
    (hu : lookupUser st authedDomain = some u0)
    (h01 : u0.useInstead = some d1)
    (h1 : lookupUser st d1 = some u1)
    (ht : u1.useInstead = none) :
    (∀ r, followCallback origin protocol ts st sess authedDomain me addr
        followee = some r →
      deliveredId (some r) =
        some (followActivityId origin protocol u1.domain ts addr) ∧
      r.delivery.keyId = actorUrl origin u1.domain ∧
      ({ from_ := webKey u1.domain, to_ := apKey followee.id
         follow := followActivityId origin protocol u1.domain ts addr
         status := "active" } : Follower) ∈ r.store.followers ∧
      (∃ o, findObject r.store
          (followActivityId origin protocol u1.domain ts addr) = some o ∧
        o.users = [webKey u1.domain, apKey followee.id]) ∧
      r.redirect = "/" ++ protocol ++ "/" ++ u1.domain ++ "/following") ∧
    (∀ r edge,
      st.followers.find? (fun f => f.from_ == edgeFrom && f.to_ == edgeTo) =
        some edge →
      unfollowCallback origin protocol ts st sess authedDomain me edgeFrom
        edgeTo followee = some r →
      deliveredId (some r) =
        some (undoActivityId origin protocol u1.domain ts edge.to_.id) ∧
      r.delivery.keyId = actorUrl origin u1.domain ∧
      (∃ o, findObject r.store
          (undoActivityId origin protocol u1.domain ts edge.to_.id) = some o ∧
        o.users = [webKey u1.domain]) ∧
      r.redirect = "/" ++ protocol ++ "/" ++ u1.domain ++ "/following") := by
  have hres : resolveUseInstead st u0 st.users.length = u1 :=
    resolveUseInstead_step st u0 u1 d1 h01 h1 ht _
      (lookupUser_length_ne_zero st authedDomain u0 hu)
  constructor
  · intro r hr
    unfold followCallback at hr
    rw [hu] at hr
    cases hr
    rw [hres]
    refine ⟨rfl, rfl, ?_, ⟨_, find?_upsertObject _ _ _ rfl, rfl⟩, rfl⟩
    exact List.mem_cons_self _ _
  · intro r edge he hr
    unfold unfollowCallback at hr
    rw [hu, he] at hr
    cases hr
    rw [hres]
    exact ⟨rfl, rfl, ⟨_, find?_upsertObject _ _ _ rfl, rfl⟩, rfl⟩

/-- Witness for C4 at the `test_callback_user_use_instead` fixtures
(`alice.com` redirecting to `www.alice.com`). -/
theorem c4_use_instead_terminal_user_witness :
    (∀ r, followCallback testOrigin "web" testTs useInsteadUnfollowStore ⟨none⟩
        "alice.com" "https://alice.com" "https://bar/actor" testFollowee =
          some r →
      deliveredId (some r) =
        some (followActivityId testOrigin "web" "www.alice.com" testTs
          "https://bar/actor") ∧
      r.delivery.keyId = actorUrl testOrigin "www.alice.com" ∧
      ({ from_ := webKey "www.alice.com", to_ := apKey testFollowee.id
         follow := followActivityId testOrigin "web" "www.alice.com" testTs
           "https://bar/actor"
         status := "active" } : Follower) ∈ r.store.followers ∧
      (∃ o, findObject r.store (followActivityId testOrigin "web"
          "www.alice.com" testTs "https://bar/actor") = some o ∧
        o.users = [webKey "www.alice.com", apKey testFollowee.id]) ∧
      r.redirect = "/" ++ "web" ++ "/" ++ "www.alice.com" ++ "/following") ∧
    (∀ r edge,
      useInsteadUnfollowStore.followers.find? (fun f =>
        f.from_ == webKey "alice.com" && f.to_ == apKey "https://bar/id") =
          some edge →
      unfollowCallback testOrigin "web" testTs useInsteadUnfollowStore ⟨none⟩
        "alice.com" "https://alice.com" (webKey "alice.com")
        (apKey "https://bar/id") testFollowee = some r →
      deliveredId (some r) =
        some (undoActivityId testOrigin "web" "www.alice.com" testTs
          edge.to_.id) ∧
      r.delivery.keyId = actorUrl testOrigin "www.alice.com" ∧
      (∃ o, findObject r.store (undoActivityId testOrigin "web" "www.alice.com"
          testTs edge.to_.id) = some o ∧
        o.users = [webKey "www.alice.com"]) ∧
      r.redirect = "/" ++ "web" ++ "/" ++ "www.alice.com" ++ "/following") :=
  c4_use_instead_terminal_user testOrigin "web" testTs useInsteadUnfollowStore
    ⟨none⟩ "alice.com" "https://alice.com" "https://bar/actor" testFollowee
    (webKey "alice.com") (apKey "https://bar/id")
    { domain := "alice.com", useInstead := some "www.alice.com" }
    { domain := "www.alice.com", useInstead := none } "www.alice.com"
    (by decide) (by decide) (by decide) (by decide)

/-- The just-upserted follower edge is found under its own endpoints. -/
theorem find?_upsertFollower_self (fs : List Follower) (e : Follower) :
    (upsertFollower fs e).find?
      (fun f => f.from_ == e.from_ && f.to_ == e.to_) = some e := by
  unfold upsertFollower
  exact List.find?_cons_of_pos _ (by simp)

/-- Unfolding equation for a successful `followCallback`. -/
theorem followCallback_spec (origin protocol ts : String) (st : Store)
    (sess : Session) (authedDomain me addr : String) (followee : Followee)
    (u0 : User) (hu : lookupUser st authedDomain = some u0) :
    followCallback origin protocol ts st sess authedDomain me addr followee =
      some
        { store := commitFollow st (resolveUseInstead st u0 st.users.length)
            followee (builtFollow origin protocol ts
              (resolveUseInstead st u0 st.users.length) addr followee)
          delivery :=
            { url := followee.inbox
              body := As2.follow (builtFollow origin protocol ts
                (resolveUseInstead st u0 st.users.length) addr followee)
              keyId := actorUrl origin
                (resolveUseInstead st u0 st.users.length).domain }
          session := { sess with indieauthedMe := some me }
          redirect := "/" ++ protocol ++ "/" ++
            (resolveUseInstead st u0 st.users.length).domain ++
            "/following" } := by
  unfold followCallback
  rw [hu]

/-- Unfolding equation for a successful `unfollowCallback`. -/
theorem unfollowCallback_spec (origin protocol ts : String) (st : Store)
    (sess : Session) (authedDomain me : String) (eF eT : Key)
    (followee : Followee) (u0 : User) (edge : Follower)
    (hu : lookupUser st authedDomain = some u0)
    (he : st.followers.find? (fun f => f.from_ == eF && f.to_ == eT) =
      some edge) :
    unfollowCallback origin protocol ts st sess authedDomain me eF eT followee =
      some
        { store := commitUnfollow st (resolveUseInstead st u0 st.users.length)
            edge (buildUndo origin protocol ts
              (resolveUseInstead st u0 st.users.length) edge
              (followDocOf (findObject st edge.follow)))
          delivery :=
            { url := followee.inbox
              body := As2.undo (buildUndo origin protocol ts
                (resolveUseInstead st u0 st.users.length) edge
                (followDocOf (findObject st edge.follow)))
              keyId := actorUrl origin
                (resolveUseInstead st u0 st.users.length).domain }
          session := { sess with indieauthedMe := some me }
          redirect := "/" ++ protocol ++ "/" ++
            (resolveUseInstead st u0 st.users.length).domain ++
            "/following" } := by
  unfold unfollowCallback
  rw [hu, he]

/-- C1: after a successful follow delivery the stored edge is `active` and its
`follow` field is the delivered Follow activity's id; a subsequent successful
unfollow on the same edge leaves it `inactive` and delivers an Undo whose
`object` is the original Follow's full document — and, in general, the bare
follow id whenever the edge's stored follow record lacks the document.  (The
acting user is the `use_instead`-terminal user; redirected users are the
subject of C4.) -/
theorem c1_follow_undo_round_trip (origin protocol ts ts2 : String)
    (st : Store) (sess sess2 : Session) (authedDomain me me2 addr : String)
    (followee : Followee) (u0 : User)
    (hu : lookupUser st authedDomain = some u0)
    (hterm : u0.useInstead = none) :
    (∀ r, followCallback origin protocol ts st sess authedDomain me addr
        followee = some r →
      r.delivery.body =
        As2.follow (builtFollow origin protocol ts u0 addr followee) ∧
      ({ from_ := webKey u0.domain, to_ := apKey followee.id
         follow := (builtFollow origin protocol ts u0 addr followee).id
         status := "active" } : Follower) ∈ r.store.followers ∧
      ∀ r2, unfollowCallback origin protocol ts2 r.store sess2 authedDomain me2
          (webKey u0.domain) (apKey followee.id) followee = some r2 →
        (∀ f ∈ r2.store.followers, f.from_ = webKey u0.domain →
          f.to_ = apKey followee.id → f.status = "inactive") ∧
        ∃ ud, r2.delivery.body = As2.undo ud ∧
          ud.object =
            Sum.inl (builtFollow origin protocol ts u0 addr followee)) ∧
    (∀ (st2 : Store) (sess3 : Session) (ts3 authed3 me3 : String) (u2 : User)
        (eF eT : Key) (edge : Follower) (r3 : FlowResult),
      lookupUser st2 authed3 = some u2 →
      st2.followers.find? (fun f => f.from_ == eF && f.to_ == eT) =
        some edge →
      followDocOf (findObject st2 edge.follow) = none →
      unfollowCallback origin protocol ts3 st2 sess3 authed3 me3 eF eT
        followee = some r3 →
      ∃ ud, r3.delivery.body = As2.undo ud ∧
        ud.object = Sum.inr edge.follow) := by
  constructor
  · intro r hr
    rw [followCallback_spec origin protocol ts st sess authedDomain me addr
        followee u0 hu,
      resolveUseInstead_terminal st u0 hterm] at hr
    cases hr
    refine ⟨rfl, List.mem_cons_self _ _, ?_⟩
    intro r2 hr2
    have hu' : lookupUser (commitFollow st u0 followee
        (builtFollow origin protocol ts u0 addr followee)) authedDomain =
        some u0 := hu
    have he' := find?_upsertFollower_self st.followers
      { from_ := webKey u0.domain, to_ := apKey followee.id
        follow := (builtFollow origin protocol ts u0 addr followee).id
        status := "active" }
    rw [unfollowCallback_spec origin protocol ts2 _ sess2 authedDomain me2 _ _
        followee u0 _ hu' he',
      resolveUseInstead_terminal _ u0 hterm] at hr2
    cases hr2
    constructor
    · intro f hf hfrom hto
      rcases List.mem_map.mp hf with ⟨g, hg, rfl⟩
      by_cases hc : (g.from_ == webKey u0.domain &&
          g.to_ == apKey followee.id) = true
      · rw [if_pos hc]
      · rw [if_neg hc] at hfrom hto ⊢
        exact absurd (by simp [hfrom, hto]) hc
    · refine ⟨_, rfl, ?_⟩
      have hfo : findObject (commitFollow st u0 followee
          (builtFollow origin protocol ts u0 addr followee))
          (builtFollow origin protocol ts u0 addr followee).id =
          some { id := (builtFollow origin protocol ts u0 addr followee).id
                 as2 := some (As2.follow
                   (builtFollow origin protocol ts u0 addr followee))
                 status := "complete", labels := ["user", "activity"]
                 users := [webKey u0.domain, apKey followee.id] } :=
        find?_upsertObject _ _ _ rfl
      simp [buildUndo, hfo, followDocOf]
  · intro st2 sess3 ts3 authed3 me3 u2 eF eT edge r3 hu2 he2 hfd hr3
    rw [unfollowCallback_spec origin protocol ts3 st2 sess3 authed3 me3 eF eT
      followee u2 edge hu2 he2] at hr3
    cases hr3
    exact ⟨_, rfl, by simp [buildUndo, hfd]⟩

/-- Witness for C1 at the `FollowTest`/`UnfollowTest` fixtures. -/
theorem c1_follow_undo_round_trip_witness :
    (∀ r, followCallback testOrigin "web" testTs followTestStore ⟨none⟩
        "alice.com" "https://alice.com" "@foo@bar" testFollowee = some r →
      r.delivery.body =
        As2.follow (builtFollow testOrigin "web" testTs aliceUser "@foo@bar"
          testFollowee) ∧
      ({ from_ := webKey aliceUser.domain, to_ := apKey testFollowee.id
         follow := (builtFollow testOrigin "web" testTs aliceUser "@foo@bar"
           testFollowee).id
         status := "active" } : Follower) ∈ r.store.followers ∧
      ∀ r2, unfollowCallback testOrigin "web" testTs r.store ⟨none⟩
          "alice.com" "https://alice.com" (webKey aliceUser.domain)
          (apKey testFollowee.id) testFollowee = some r2 →
        (∀ f ∈ r2.store.followers, f.from_ = webKey aliceUser.domain →
          f.to_ = apKey testFollowee.id → f.status = "inactive") ∧
        ∃ ud, r2.delivery.body = As2.undo ud ∧
          ud.object = Sum.inl (builtFollow testOrigin "web" testTs aliceUser
            "@foo@bar" testFollowee)) ∧
    (∀ (st2 : Store) (sess3 : Session) (ts3 authed3 me3 : String) (u2 : User)
        (eF eT : Key) (edge : Follower) (r3 : FlowResult),
      lookupUser st2 authed3 = some u2 →
      st2.followers.find? (fun f => f.from_ == eF && f.to_ == eT) =
        some edge →
      followDocOf (findObject st2 edge.follow) = none →
      unfollowCallback testOrigin "web" ts3 st2 sess3 authed3 me3 eF eT
        testFollowee = some r3 →
      ∃ ud, r3.delivery.body = As2.undo ud ∧
        ud.object = Sum.inr edge.follow) :=
  c1_follow_undo_round_trip testOrigin "web" testTs testTs followTestStore
    ⟨none⟩ ⟨none⟩ "alice.com" "https://alice.com" "https://alice.com"
    "@foo@bar" testFollowee aliceUser (by decide) (by decide)

/-- In a well-formed store, the follow document carried by the record stored
under `id` has document id `id`. -/
theorem followDocOf_findObject (st : Store) (hwf : objectIdWF st)
    (id : String) (d : FollowDoc)
    (h : followDocOf (findObject st id) = some d) : d.id = id := by
  cases hfo : findObject st id with
  | none => rw [hfo] at h; cases h
  | some o =>
    rw [hfo] at h
    cases ha : o.as2 with
    | none => simp [followDocOf, ha] at h
    | some a =>
      cases a with
      | undo u => simp [followDocOf, ha] at h
      | follow d' =>
        simp only [followDocOf, ha, Option.some.injEq] at h
        have hfo' : st.objects.find? (fun p => p.id == id) = some o := hfo
        have hmem : o ∈ st.objects := List.mem_of_find?_eq_some hfo'
        have hid := List.find?_some hfo'
        rw [← h, hwf o hmem _ ha]
        exact beq_iff_eq.mp hid

/-- The follow commit preserves the active-edge invariant. -/
theorem commitFollow_activeInv (st : Store) (u : User) (followee : Followee)
    (d : FollowDoc) (h : followerActiveInv st) :
    followerActiveInv (commitFollow st u followee d) := by
  intro f hf hactive
  simp only [commitFollow, upsertFollower, upsertObject] at hf ⊢
  rcases List.mem_cons.mp hf with rfl | hf'
  · exact ⟨_, List.mem_cons_self _ _, rfl, rfl⟩
  · obtain ⟨o, ho, hid, hst⟩ := h f (List.mem_filter.mp hf').1 hactive
    by_cases hoid : (o.id != d.id) = true
    · exact ⟨o, List.mem_cons_of_mem _ (List.mem_filter.mpr ⟨ho, hoid⟩),
        hid, hst⟩
    · have heq : o.id = d.id := by simpa using hoid
      exact ⟨_, List.mem_cons_self _ _, by rw [← heq]; exact hid, rfl⟩

/-- The follow commit preserves the id well-formedness of stored records. -/
theorem commitFollow_idWF (st : Store) (u : User) (followee : Followee)
    (d : FollowDoc) (h : objectIdWF st) :
    objectIdWF (commitFollow st u followee d) := by
  intro o ho d' hd'
  simp only [commitFollow, upsertObject] at ho
  rcases List.mem_cons.mp ho with rfl | ho'
  · simp only [Option.some.injEq, As2.follow.injEq] at hd'
    rw [← hd']
  · exact h o (List.mem_filter.mp ho').1 d' hd'

/-- The unfollow commit preserves the active-edge invariant. -/
theorem commitUnfollow_activeInv (st : Store) (u : User) (edge : Follower)
    (undo : UndoDoc) (h : followerActiveInv st) :
    followerActiveInv (commitUnfollow st u edge undo) := by
  intro f hf hactive
  simp only [commitUnfollow, upsertObject] at hf ⊢
  rcases List.mem_map.mp hf with ⟨g, hg, rfl⟩
  by_cases hc : (g.from_ == edge.from_ && g.to_ == edge.to_) = true
  · rw [if_pos hc] at hactive
    simp at hactive
  · rw [if_neg hc] at hactive ⊢
    obtain ⟨o, ho, hid, hst⟩ := h g hg hactive
    by_cases hoid : (o.id != undo.id) = true
    · exact ⟨o, List.mem_cons_of_mem _ (List.mem_filter.mpr ⟨ho, hoid⟩),
        hid, hst⟩
    · have heq : o.id = undo.id := by simpa using hoid
      exact ⟨_, List.mem_cons_self _ _, by rw [← heq]; exact hid, rfl⟩

/-- The unfollow commit preserves the id well-formedness of stored records. -/
theorem commitUnfollow_idWF (st : Store) (u : User) (edge : Follower)
    (undo : UndoDoc) (h : objectIdWF st) :
    objectIdWF (commitUnfollow st u edge undo) := by
  intro o ho d' hd'
  simp only [commitUnfollow, upsertObject] at ho
  rcases List.mem_cons.mp ho with rfl | ho'
  · simp at hd'
  · exact h o (List.mem_filter.mp ho').1 d' hd'

/-- Every flow transition preserves both store invariants. -/
theorem flowStep_preserves (s s' : MachineState) (hstep : FlowStep s s')
    (h : followerActiveInv s.store ∧ objectIdWF s.store) :
    followerActiveInv s'.store ∧ objectIdWF s'.store := by
  cases hstep with
  | advance p q st hok => exact h
  | fail p st => exact h
  | commitFollowStep st u followee d =>
    exact ⟨commitFollow_activeInv st u followee d h.1,
      commitFollow_idWF st u followee d h.2⟩
  | commitUnfollowStep st u origin protocol ts edge hmem =>
    exact ⟨commitUnfollow_activeInv st u edge _ h.1,
      commitUnfollow_idWF st u edge _ h.2⟩

/-- Both store invariants hold in every reachable machine state. -/
theorem reachable_preserves (init s : MachineState)
    (h1 : followerActiveInv init.store) (h2 : objectIdWF init.store)
    (hr : Reachable init s) :
    followerActiveInv s.store ∧ objectIdWF s.store := by
  induction hr with
  | refl => exact ⟨h1, h2⟩
  | step hr hstep ih => exact flowStep_preserves _ _ hstep ih

/-- Any step that stores a new `complete` activity record also updates the
matching follower edge in the same transition. -/
theorem flowStep_complete_edge (s s' : MachineState) (hstep : FlowStep s s')
    (hwf : objectIdWF s.store) :
    ∀ o ∈ s'.store.objects, o.status = "complete" → o ∉ s.store.objects →
      ∃ f ∈ s'.store.followers, edgeUpdatedFor o f := by
  cases hstep with
  | advance p q st hok => intro o ho _ hno; exact absurd ho hno
  | fail p st => intro o ho _ hno; exact absurd ho hno
  | commitFollowStep st u followee d =>
    intro o ho hc hno
    simp only [commitFollow, upsertObject] at ho
    rcases List.mem_cons.mp ho with rfl | ho'
    · exact ⟨_, List.mem_cons_self _ _, rfl, rfl⟩
    · exact absurd (List.mem_filter.mp ho').1 hno
  | commitUnfollowStep st u origin protocol ts edge hmem =>
    intro o ho hc hno
    simp only [commitUnfollow, upsertObject] at ho
    rcases List.mem_cons.mp ho with rfl | ho'
    · refine ⟨{ edge with status := "inactive" }, ?_, ?_⟩
      · exact List.mem_map.mpr ⟨edge, hmem, by simp⟩
      · cases hfd : followDocOf (findObject st edge.follow) with
        | none =>
          exact ⟨by simp [buildUndo, undoFollowRef, hfd], rfl⟩
        | some dd =>
          have hdd : dd.id = edge.follow :=
            followDocOf_findObject st hwf _ dd hfd
          exact ⟨by simp [buildUndo, undoFollowRef, hfd, hdd], rfl⟩
    · exact absurd (List.mem_filter.mp ho').1 hno

/-- C3: in every reachable state of the follow/unfollow flow machine, no
follower edge is `active` without a `complete` stored activity record under
its `follow` reference, and any step that stores a new `complete` activity
also updates the matching follower edge in that same transition — the store
step is one logical commit, and failure transitions never change the store. -/
theorem c3_commit_atomicity :
    (∀ init s : MachineState, followerActiveInv init.store →
        objectIdWF init.store → Reachable init s →
        followerActiveInv s.store ∧ objectIdWF s.store) ∧
    (∀ s s' : MachineState, FlowStep s s' → objectIdWF s.store →
        ∀ o ∈ s'.store.objects, o.status = "complete" →
          o ∉ s.store.objects →
          ∃ f ∈ s'.store.followers, edgeUpdatedFor o f) :=
  ⟨reachable_preserves, flowStep_complete_edge⟩

/-- Witness for C3: one reachable commit from the `FollowTest` store. -/
theorem c3_commit_atomicity_witness :
    followerActiveInv
        (commitFollow followTestStore aliceUser testFollowee followAddressDoc) ∧
    objectIdWF
        (commitFollow followTestStore aliceUser testFollowee followAddressDoc) :=
  c3_commit_atomicity.1 ⟨Phase.delivering, followTestStore⟩
    ⟨Phase.committed,
      commitFollow followTestStore aliceUser testFollowee followAddressDoc⟩
    (by simp [followerActiveInv, followTestStore])
    (by simp [objectIdWF, followTestStore])
    (Reachable.step Reachable.refl
      (FlowStep.commitFollowStep followTestStore aliceUser testFollowee
        followAddressDoc))

end BridgyFed
